import Mathlib

/-!
Verification of the joist `Sim` run loop (src/js/Sim.js) and the
`SimIFrameAPI` active-flag wiring (src/js/SimIFrameAPI.js).

The development shallowly embeds the two animation loops of `Sim`:

* the live loop created inside `Sim.prototype.start` (Sim.js lines 668-771),
  modelled one iteration at a time by `animationLoopTick` and folded over a
  list of per-tick external inputs by `runAnimationLoop`;
* the playback loop created inside `Sim.prototype.startInputEventPlayback`
  (Sim.js lines 783-842), modelled by `playbackLoop` /
  `startInputEventPlayback`.

Wall-clock readings (`Date.now()`), DOM events arriving between frames, and
the current display size are inputs to the model; everything the loops do to
their collaborators (model/view stepping, firing input events, recording
frame entries, redrawing) is reported in explicit per-tick output records.

Scenery serializes input events as JavaScript strings (see
`display._input.eventLog` and Sim.js line 611), so events are `String` here.
Times are integer milliseconds; `dt` values are rationals (seconds).
-/

namespace Joist

/-- Serialized scenery input event, e.g. the strings pushed onto
`display._input.eventLog`. -/
abbrev Event := String

/-! ### Playback: `Sim.prototype.startInputEventPlayback` (Sim.js 783-842) -/

/-- One frame object of a playback trace / recorded input-event log: `dt`,
the events replayed by `fireEvents` (absent in the wire format exactly when
the list is empty), the delta-encoded optional `width`/`height`, the
`id` sequence number and the capture `time`.  (Sim.js 751-764, 844-851.) -/
structure Frame where
  dt : ℚ
  events : List Event
  width : Option ℕ
  height : Option ℕ
  id : ℕ
  time : ℤ
deriving Repr, DecidableEq

/-- The part of the sim state that playback reads: `sim.showHomeScreen` and
`sim.screenIndex` (Sim.js 830-831).  Replayed events are dispatched into the
scene graph and may navigate, so this state can change while events fire. -/
structure NavState where
  showHomeScreen : Bool
  screenIndex : ℕ
deriving Repr, DecidableEq

/-- What one invocation of the playback `animationLoop` did to the sim's
collaborators: the events it fired via `frame.fireEvents` (Sim.js 827) and
the `model.step` call it made, if any (Sim.js 830-832). -/
structure PlaybackTick where
  fired : List Event
  step : Option ℚ
deriving Repr, DecidableEq

/-- Accumulated outcome of running the playback `animationLoop` recursion to
completion from a given cursor position. -/
structure PlaybackLoopResult where
  ticks : List PlaybackTick
  finalNav : NavState
  invocations : ℕ
  rafCalls : ℕ
  statsReports : ℕ
deriving Repr, DecidableEq

/-- The playback `animationLoop` (Sim.js 797-841), as a recursion over the
suffix of `data` starting at the current cursor `index`; `data[ index++ ]`
advances the cursor by exactly one per invocation, which is what makes this
recursion structural.  When the cursor has passed the end
(`frame === undefined`) the loop reports statistics once and returns without
re-arming `requestAnimationFrame`; otherwise it re-arms, fires the frame's
recorded events, steps the model with the frame's pre-recorded `dt` unless
the home screen is showing, and recurses.  `fireEffect` is the (external,
deterministic) effect of dispatching one serialized event into the scene. -/
def playbackLoop (fireEffect : NavState → Event → NavState) :
    List Frame → NavState → PlaybackLoopResult
  | [], nav =>
    -- frame === undefined: report performance statistics, no re-arm
    { ticks := [], finalNav := nav, invocations := 1, rafCalls := 0,
      statsReports := 1 }
  | f :: rest, nav =>
    -- window.requestAnimationFrame( animationLoop );
    -- if ( frame.fireEvents ) { frame.fireEvents( ... ); }
    let nav1 := f.events.foldl fireEffect nav
    -- if ( !sim.showHomeScreen ) { ...model.step( frame.dt ); }
    let step := if nav1.showHomeScreen = false then some f.dt else none
    let r := playbackLoop fireEffect rest nav1
    { ticks := { fired := f.events, step := step } :: r.ticks,
      finalNav := r.finalNav,
      invocations := r.invocations + 1,
      rafCalls := r.rafCalls + 1,
      statsReports := r.statsReports }

/-- Result of a whole `startInputEventPlayback` run, including the
performance statistics computed when the trace is exhausted (Sim.js
800-814).  `frameCounter` is `sim.frameCounter`, which the playback code
never touches; it is threaded through unchanged.  `reportedFrameCount` is
the `index` value printed as "Number of frames" (the cursor has already
moved past the end, so it equals `data.length + 1`). -/
structure PlaybackResult where
  ticks : List PlaybackTick
  finalNav : NavState
  invocations : ℕ
  rafCalls : ℕ
  statsReports : ℕ
  initialResize : Option (ℕ × Option ℕ)
  elapsedTime : ℤ
  fps : ℚ
  msPerFrame : ℚ
  reportedFrameCount : ℕ
  frameCounter : ℕ
deriving Repr, DecidableEq

/-- `Sim.prototype.startInputEventPlayback( data )` (Sim.js 783-842).
`startNow` and `endNow` are the two `Date.now()` readings (lines 795 and
802); `frameCounter` is the sim's frame counter when playback starts. -/
def startInputEventPlayback (fireEffect : NavState → Event → NavState)
    (data : List Frame) (nav : NavState) (frameCounter : ℕ)
    (startNow endNow : ℤ) : PlaybackResult :=
  -- if ( data.length && data[ 0 ].width ) { sim.resize( data[ 0 ].width, data[ 0 ].height ); }
  let initialResize : Option (ℕ × Option ℕ) :=
    match data with
    | [] => none
    | f :: _ =>
      match f.width with
      | some w => if w ≠ 0 then some (w, f.height) else none
      | none => none
  let r := playbackLoop fireEffect data nav
  let elapsedTime : ℤ := endNow - startNow
  -- index has been incremented past the end of the data by the final fetch
  let finalIndex : ℕ := data.length + 1
  { ticks := r.ticks,
    finalNav := r.finalNav,
    invocations := r.invocations,
    rafCalls := r.rafCalls,
    statsReports := r.statsReports,
    initialResize := initialResize,
    elapsedTime := elapsedTime,
    fps := (data.length : ℚ) / ((elapsedTime : ℚ) / 1000),
    msPerFrame := (elapsedTime : ℚ) / (finalIndex : ℚ),
    reportedFrameCount := finalIndex,
    frameCounter := frameCounter }

/-- Number of `model.step` calls a playback run made. -/
def modelStepCount (r : PlaybackResult) : ℕ :=
  (r.ticks.filter (fun t => t.step.isSome)).length

/-! ### Live loop: `Sim.prototype.start` (Sim.js 630-780) -/

/-- The `Sim` options the live animation loop consults:
`options.fuzzMouse` / `options.fuzzTouches` (Sim.js 688-693),
`options.batchEvents` (Sim.js 697) and `options.recordInputEventLog`
(Sim.js 748). -/
structure SimOptions where
  fuzzMouse : Bool
  fuzzTouches : Bool
  batchEvents : Bool
  recordInputEventLog : Bool
deriving Repr, DecidableEq

/-- One frame entry recorded while `options.recordInputEventLog` is set
(Sim.js 751-764): the computed `dt`, the serialized events observed during
the tick, the frame counter as `id`, the wall-clock `time`, and the
delta-encoded optional `width`/`height`. -/
structure Entry where
  dt : ℚ
  events : List Event
  id : ℕ
  time : ℤ
  width : Option ℕ
  height : Option ℕ
deriving Repr, DecidableEq

/-- The mutable state the live animation loop reads and writes across
ticks: `sim.frameCounter` (Sim.js 201, 674), the `lastTime` closure
variable with its `-1` "no previous tick" sentinel (Sim.js 649, 715-716),
the batched-but-unfired DOM events held by `sim.display._input`
(fired or cleared at Sim.js 702/708), the serialized event log
`sim.display._input.eventLog` (consumed and cleared at Sim.js 753/766),
and `sim.inputEventWidth` / `sim.inputEventHeight`, the last recorded
viewport dimensions (Sim.js 757-760, `undefined` before the first recorded
frame). -/
structure LiveState where
  frameCounter : ℕ
  lastTime : ℤ
  batchedEvents : List Event
  eventLog : List Event
  inputEventWidth : Option ℕ
  inputEventHeight : Option ℕ
deriving Repr, DecidableEq

/-- The live-loop state at the top of `Sim.prototype.start`. -/
def LiveState.init : LiveState :=
  { frameCounter := 0, lastTime := -1, batchedEvents := [], eventLog := [],
    inputEventWidth := none, inputEventHeight := none }

/-- Everything external that one live tick observes: the `Date.now()`
readings at Sim.js 714 (`now`) and 755 (`entryTime`); the DOM events
batched by the display since the previous tick and the serialized events
appended to `display._input.eventLog` since the previous tick (resizes also
append a `setSize` string there, Sim.js 611); the current values of the
`sim.active`, `sim.showHomeScreen` and `sim.screenIndex` properties, which
other code (e.g. `SimIFrameAPI`'s `setActive` command) may have changed
between ticks; whether the current screen defines `model.step` /
`view.step`; and the display's current size. -/
structure TickInput where
  now : ℤ
  entryTime : ℤ
  newBatchedEvents : List Event
  newLoggedEvents : List Event
  active : Bool
  showHomeScreen : Bool
  screenIndex : ℕ
  hasModelStep : Bool
  hasViewStep : Bool
  displayWidth : ℕ
  displayHeight : ℕ
deriving Repr, DecidableEq

/-- What one live tick did to the sim's collaborators: the frame counter
value after the increment at Sim.js 674, the batched events delivered by
`fireBatchedEvents` (Sim.js 702), the computed `dt` (Sim.js 713-719), the
`model.step` / `view.step` / `Timer.step` calls made (Sim.js 732-740), the
frame entry recorded (Sim.js 748-765), and the `updateDisplay` redraw
(Sim.js 768, unconditional). -/
structure TickOutput where
  frameCounter : ℕ
  firedBatched : List Event
  dt : ℚ
  modelStep : Option ℚ
  viewStep : Option ℚ
  timerStep : Option ℚ
  recorded : Option Entry
  updateDisplayCalled : Bool
deriving Repr, DecidableEq

/-- Result of the recording block Sim.js 748-765: the frame `Entry` built
for this tick and the updated `sim.inputEventWidth` / `sim.inputEventHeight`
fields. -/
structure RecordUpdate where
  entry : Entry
  inputEventWidth : Option ℕ
  inputEventHeight : Option ℕ
deriving Repr, DecidableEq

/-- The recording block (Sim.js 751-764): build the frame entry, and attach
`width`/`height` to it exactly when the display size differs from the last
recorded `sim.inputEventWidth` / `sim.inputEventHeight` (which start out
`undefined`, so the first recorded frame always attaches them). -/
def recordFrameEntry (s : LiveState) (frameCounter : ℕ) (dt : ℚ)
    (events : List Event) (entryTime : ℤ)
    (displayWidth displayHeight : ℕ) : RecordUpdate :=
  let base : Entry :=
    { dt := dt, events := events, id := frameCounter, time := entryTime,
      width := none, height := none }
  if s.inputEventWidth ≠ some displayWidth ∨
     s.inputEventHeight ≠ some displayHeight then
    { entry := { base with width := some displayWidth,
                           height := some displayHeight },
      inputEventWidth := some displayWidth,
      inputEventHeight := some displayHeight }
  else
    { entry := base,
      inputEventWidth := s.inputEventWidth,
      inputEventHeight := s.inputEventHeight }

/-- One iteration of the live `animationLoop` (Sim.js 668-771).  Events
that arrived since the previous frame are appended to the display's
buffers first; the loop then fires or discards batched input, computes
`dt` from wall time (with the `lastTime === -1` first-frame sentinel),
steps model/view/timer when the sim is active, records a frame entry when
recording, and redraws. -/
def animationLoopTick (options : SimOptions) (s : LiveState)
    (inp : TickInput) : LiveState × TickOutput :=
  -- sim.frameCounter++;
  let frameCounter := s.frameCounter + 1
  -- events arriving between frames accumulate in the display's input buffers
  let batched0 := s.batchedEvents ++ inp.newBatchedEvents
  let eventLog0 := s.eventLog ++ inp.newLoggedEvents
  -- fire or synthesize input events (Sim.js 688-711); with fuzzing, the
  -- batched-event branch is skipped entirely.  When batching and active,
  -- fireBatchedEvents delivers the buffer; when batching and inactive,
  -- clearBatchedEvents empties it without firing.
  let firedBatched :=
    if options.fuzzMouse ∨ options.fuzzTouches then []
    else if options.batchEvents ∧ inp.active then batched0 else []
  let batched1 :=
    if options.fuzzMouse ∨ options.fuzzTouches then batched0
    else if options.batchEvents then [] else batched0
  -- var elapsedTimeMilliseconds = (lastTime === -1) ? (1000.0/60.0) : (time - lastTime);
  let elapsedTimeMilliseconds : ℚ :=
    if s.lastTime = -1 then 1000 / 60 else ((inp.now - s.lastTime : ℤ) : ℚ)
  let lastTime := inp.now
  let dt : ℚ := elapsedTimeMilliseconds / 1000
  -- if ( screen.model.step && dt ) { screen.model.step( dt ); }
  let modelStep :=
    if inp.active ∧ inp.showHomeScreen = false ∧ inp.hasModelStep ∧ dt ≠ 0
    then some dt else none
  -- if ( screen.view.step ) { screen.view.step( dt ); }
  let viewStep :=
    if inp.active ∧ inp.showHomeScreen = false ∧ inp.hasViewStep
    then some dt else none
  -- Timer.step( dt ); -- inside if ( sim.active )
  let timerStep := if inp.active then some dt else none
  -- if ( sim.options.recordInputEventLog ) { ... } (Sim.js 748-767); the
  -- event log is cleared after the entry is sent
  let recording := options.recordInputEventLog
  let recUpdate :=
    recordFrameEntry s frameCounter dt eventLog0 inp.entryTime
      inp.displayWidth inp.displayHeight
  ( { frameCounter := frameCounter, lastTime := lastTime,
      batchedEvents := batched1,
      eventLog := if recording then [] else eventLog0,
      inputEventWidth :=
        if recording then recUpdate.inputEventWidth else s.inputEventWidth,
      inputEventHeight :=
        if recording then recUpdate.inputEventHeight else s.inputEventHeight },
    { frameCounter := frameCounter, firedBatched := firedBatched, dt := dt,
      modelStep := modelStep, viewStep := viewStep, timerStep := timerStep,
      recorded := if recording then some recUpdate.entry else none,
      updateDisplayCalled := true } )

/-- Run the live animation loop over a list of per-tick inputs, collecting
the per-tick outputs. -/
def runAnimationLoop (options : SimOptions) :
    LiveState → List TickInput → LiveState × List TickOutput
  | s, [] => (s, [])
  | s, t :: ts =>
    let st := animationLoopTick options s t
    let rest := runAnimationLoop options st.1 ts
    (rest.1, st.2 :: rest.2)

/-- The trace of frame entries a recording run produced (each entry is sent
over the recording transport at Sim.js 765, one per tick). -/
def recordedEntries (options : SimOptions) (s : LiveState)
    (ticks : List TickInput) : List Entry :=
  (runAnimationLoop options s ticks).2.filterMap (fun o => o.recorded)

/-- Fold step for scanning a trace for carried dimensions: an entry that
carries `width`/`height` replaces the running pair. -/
def updateDims (p : Option ℕ × Option ℕ) (e : Entry) : Option ℕ × Option ℕ :=
  if e.width.isSome then (e.width, e.height) else p

/-- The most recent `width`/`height` pair carried by an entry of the given
trace, scanning the whole list (`(none, none)` when no entry carries
dimensions). -/
def lastDims (es : List Entry) : Option ℕ × Option ℕ :=
  es.foldl updateDims (none, none)

/-- The effective viewport size at frame `i` of a trace: scan backward from
frame `i` to the most recent frame carrying `width`/`height`. -/
def effectiveSizeAt (es : List Entry) (i : ℕ) : Option ℕ × Option ℕ :=
  lastDims (es.take (i + 1))

/-! ### Constructor: `showHomeScreen` initialization (Sim.js 57-236) -/

/-- The `stringToBoolean` helper of the `Sim` constructor (Sim.js 219). -/
def stringToBoolean (s : String) : Bool := s == "true"

/-- Result of the `Sim` constructor as far as `showHomeScreen` is
concerned: the initial value of the `showHomeScreen` property installed by
`PropertySet.call` (Sim.js 139-142), and the final value of
`options.showHomeScreen` after the query-parameter block (Sim.js 221-224),
which nothing in `Sim.js` reads afterwards. -/
structure ShowHomeScreenInit where
  propShowHomeScreen : Bool
  optionsShowHomeScreen : Bool
deriving Repr, DecidableEq

/-- The `Sim` constructor statements that determine the initial
`showHomeScreen` state, in source order.  `optionsIn` is the caller's
`options.showHomeScreen` (`none` when not supplied), `screensLength` is
`screens.length`, and `queryShowHomeScreen` is
`phet.chipper.getQueryParameter( 'showHomeScreen' )` (`none` when absent;
the code's truthiness test also skips an empty string). -/
def simConstructShowHomeScreen (optionsIn : Option Bool)
    (screensLength : ℕ) (queryShowHomeScreen : Option String) :
    ShowHomeScreenInit :=
  -- options = _.extend( { showHomeScreen: true, ... }, options ); (Sim.js 63-115)
  -- var showHomeScreen = ( _.isUndefined( options.showHomeScreen ) ) ? true : options.showHomeScreen; (Sim.js 123)
  let optionsSHS := optionsIn.getD true
  let showHomeScreen0 := optionsSHS
  -- if ( screens.length === 1 ) { showHomeScreen = false; } (Sim.js 135-137)
  let showHomeScreen1 := if screensLength = 1 then false else showHomeScreen0
  -- PropertySet.call( this, { showHomeScreen: showHomeScreen, ... } ); (Sim.js 139-142)
  let propShowHomeScreen := showHomeScreen1
  -- if ( phet.chipper.getQueryParameter( 'showHomeScreen' ) ) {
  --   options.showHomeScreen = stringToBoolean( ... ); } (Sim.js 221-224)
  -- This mutates options only; the property was already initialized above.
  let optionsFinal :=
    match queryShowHomeScreen with
    | some q => if q ≠ "" then stringToBoolean q else optionsSHS
    | none => optionsSHS
  { propShowHomeScreen := propShowHomeScreen,
    optionsShowHomeScreen := optionsFinal }

/-! ### Active-flag link (Sim.js 285-288, SimIFrameAPI.js 70-72) -/

/-- The pair of flags tied together by
`this.activeProperty.link( function( active ) { sim.display.interactive = active; } )`:
the sim's `active` property and the display's `interactive` flag. -/
structure ActiveLinkState where
  active : Bool
  displayInteractive : Bool
deriving Repr, DecidableEq

/-- Constructing the link (Sim.js 286-288): `Property.link` invokes the
listener immediately with the current value, overwriting whatever
`interactive` value the display was constructed with. -/
def linkActiveToDisplay (initialActive : Bool)
    (_displayInteractive0 : Bool) : ActiveLinkState :=
  { active := initialActive, displayInteractive := initialActive }

/-- Setting the `active` property (e.g. `sim.active = message.value` for the
`setActive` command, SimIFrameAPI.js 70-72): an axon property notifies its
linked listeners exactly when the value changed. -/
def setActive (s : ActiveLinkState) (value : Bool) : ActiveLinkState :=
  if value = s.active then s
  else { active := value, displayInteractive := value }

/-! ### Concrete fixtures used to exercise the model on closed inputs -/

/-- An event-dispatch effect that never navigates (no replayed event
touches the navigation bar or home button). -/
def fireEffectId : NavState → Event → NavState := fun n _ => n

/-- Navigation state with the first screen selected and the home screen
hidden. -/
def navScreen0 : NavState := { showHomeScreen := false, screenIndex := 0 }

/-- Options of a plain live run: no fuzzing, no batching, no recording. -/
def plainOptions : SimOptions :=
  { fuzzMouse := false, fuzzTouches := false, batchEvents := false,
    recordInputEventLog := false }

/-- Options of a recording run. -/
def recordingOptions : SimOptions :=
  { fuzzMouse := false, fuzzTouches := false, batchEvents := false,
    recordInputEventLog := true }

/-- Options of a live run with DOM-event batching enabled. -/
def batchingOptions : SimOptions :=
  { fuzzMouse := false, fuzzTouches := false, batchEvents := true,
    recordInputEventLog := false }

/-- A live tick input with the given wall time, display size, freshly
batched events and `active` / `showHomeScreen` flags; the current screen
has both `model.step` and `view.step`. -/
def sampleTick (now : ℤ) (w h : ℕ) (nb : List Event)
    (active showHome : Bool) : TickInput :=
  { now := now, entryTime := now, newBatchedEvents := nb,
    newLoggedEvents := [], active := active, showHomeScreen := showHome,
    screenIndex := 0, hasModelStep := true, hasViewStep := true,
    displayWidth := w, displayHeight := h }

/-- A playback trace frame with the given `dt` and replayed events and no
carried viewport size. -/
def sampleFrame (dt : ℚ) (events : List Event) (id : ℕ) : Frame :=
  { dt := dt, events := events, width := none, height := none, id := id,
    time := 0 }

/-- The spec's recording scenario: three ticks 20 ms apart (deltas
`1/60` sentinel, then `0.02`, `0.02` seconds) with a viewport resize
(768×504 → 1024×672) taking effect only on the second tick. -/
def resizeScenario : List TickInput :=
  [ sampleTick 1000 768 504 [] true false,
    sampleTick 1020 1024 672 [] true false,
    sampleTick 1040 1024 672 [] true false ]

/-! ### Projection lemmas for the live tick -/

section TickLemmas

variable (options : SimOptions) (s : LiveState) (inp : TickInput)

lemma tick_out_frameCounter :
    (animationLoopTick options s inp).2.frameCounter = s.frameCounter + 1 :=
  rfl

lemma tick_state_frameCounter :
    (animationLoopTick options s inp).1.frameCounter = s.frameCounter + 1 :=
  rfl

lemma tick_state_lastTime :
    (animationLoopTick options s inp).1.lastTime = inp.now := rfl

lemma tick_out_dt :
    (animationLoopTick options s inp).2.dt =
      (if s.lastTime = -1 then (1000 / 60 : ℚ)
       else ((inp.now - s.lastTime : ℤ) : ℚ)) / 1000 := rfl

lemma tick_out_modelStep :
    (animationLoopTick options s inp).2.modelStep =
      if inp.active ∧ inp.showHomeScreen = false ∧ inp.hasModelStep ∧
         (animationLoopTick options s inp).2.dt ≠ 0
      then some ((animationLoopTick options s inp).2.dt) else none := rfl

lemma tick_out_viewStep :
    (animationLoopTick options s inp).2.viewStep =
      if inp.active ∧ inp.showHomeScreen = false ∧ inp.hasViewStep
      then some ((animationLoopTick options s inp).2.dt) else none := rfl

lemma tick_out_firedBatched :
    (animationLoopTick options s inp).2.firedBatched =
      if options.fuzzMouse ∨ options.fuzzTouches then []
      else if options.batchEvents ∧ inp.active then
        s.batchedEvents ++ inp.newBatchedEvents
      else [] := rfl

lemma tick_state_batchedEvents :
    (animationLoopTick options s inp).1.batchedEvents =
      if options.fuzzMouse ∨ options.fuzzTouches then
        s.batchedEvents ++ inp.newBatchedEvents
      else if options.batchEvents then []
      else s.batchedEvents ++ inp.newBatchedEvents := rfl

lemma tick_out_recorded :
    (animationLoopTick options s inp).2.recorded =
      if options.recordInputEventLog then
        some (recordFrameEntry s (s.frameCounter + 1)
          ((animationLoopTick options s inp).2.dt)
          (s.eventLog ++ inp.newLoggedEvents) inp.entryTime
          inp.displayWidth inp.displayHeight).entry
      else none := rfl

lemma tick_state_inputEventWidth :
    (animationLoopTick options s inp).1.inputEventWidth =
      if options.recordInputEventLog then
        (recordFrameEntry s (s.frameCounter + 1)
          ((animationLoopTick options s inp).2.dt)
          (s.eventLog ++ inp.newLoggedEvents) inp.entryTime
          inp.displayWidth inp.displayHeight).inputEventWidth
      else s.inputEventWidth := rfl

lemma tick_state_inputEventHeight :
    (animationLoopTick options s inp).1.inputEventHeight =
      if options.recordInputEventLog then
        (recordFrameEntry s (s.frameCounter + 1)
          ((animationLoopTick options s inp).2.dt)
          (s.eventLog ++ inp.newLoggedEvents) inp.entryTime
          inp.displayWidth inp.displayHeight).inputEventHeight
      else s.inputEventHeight := rfl

lemma tick_out_updateDisplay :
    (animationLoopTick options s inp).2.updateDisplayCalled = true := rfl

end TickLemmas

/-! ### Lemmas about `recordFrameEntry` -/

section RecordLemmas

variable (s : LiveState) (fc : ℕ) (dt : ℚ) (evs : List Event) (t : ℤ)
variable (w h : ℕ)

lemma recordFrameEntry_id :
    (recordFrameEntry s fc dt evs t w h).entry.id = fc := by
  unfold recordFrameEntry
  split <;> rfl

lemma recordFrameEntry_width :
    (recordFrameEntry s fc dt evs t w h).entry.width =
      if s.inputEventWidth ≠ some w ∨ s.inputEventHeight ≠ some h
      then some w else none := by
  unfold recordFrameEntry
  split <;> simp_all

lemma recordFrameEntry_height :
    (recordFrameEntry s fc dt evs t w h).entry.height =
      if s.inputEventWidth ≠ some w ∨ s.inputEventHeight ≠ some h
      then some h else none := by
  unfold recordFrameEntry
  split <;> simp_all

lemma recordFrameEntry_newWidth :
    (recordFrameEntry s fc dt evs t w h).inputEventWidth = some w := by
  unfold recordFrameEntry
  split
  · rfl
  · next hcond =>
    push_neg at hcond
    simpa using hcond.1

lemma recordFrameEntry_newHeight :
    (recordFrameEntry s fc dt evs t w h).inputEventHeight = some h := by
  unfold recordFrameEntry
  split
  · rfl
  · next hcond =>
    push_neg at hcond
    simpa using hcond.2

end RecordLemmas

/-! ### Lemmas about the run loops -/

lemma runAnimationLoop_nil (options : SimOptions) (s : LiveState) :
    runAnimationLoop options s [] = (s, []) := rfl

lemma runAnimationLoop_cons (options : SimOptions) (s : LiveState)
    (t : TickInput) (ts : List TickInput) :
    runAnimationLoop options s (t :: ts) =
      ((runAnimationLoop options (animationLoopTick options s t).1 ts).1,
       (animationLoopTick options s t).2 ::
         (runAnimationLoop options (animationLoopTick options s t).1 ts).2) :=
  rfl

lemma playbackLoop_nil (fe : NavState → Event → NavState) (nav : NavState) :
    playbackLoop fe [] nav =
      { ticks := [], finalNav := nav, invocations := 1, rafCalls := 0,
        statsReports := 1 } := rfl

lemma playbackLoop_cons (fe : NavState → Event → NavState) (f : Frame)
    (rest : List Frame) (nav : NavState) :
    playbackLoop fe (f :: rest) nav =
      { ticks := { fired := f.events,
                   step := if (f.events.foldl fe nav).showHomeScreen = false
                           then some f.dt else none } ::
                 (playbackLoop fe rest (f.events.foldl fe nav)).ticks,
        finalNav := (playbackLoop fe rest (f.events.foldl fe nav)).finalNav,
        invocations :=
          (playbackLoop fe rest (f.events.foldl fe nav)).invocations + 1,
        rafCalls := (playbackLoop fe rest (f.events.foldl fe nav)).rafCalls + 1,
        statsReports :=
          (playbackLoop fe rest (f.events.foldl fe nav)).statsReports } :=
  rfl

lemma playbackLoop_invocations (fe : NavState → Event → NavState) :
    ∀ (data : List Frame) (nav : NavState),
      (playbackLoop fe data nav).invocations = data.length + 1
  | [], _ => rfl
  | _ :: rest, nav => by
    rw [playbackLoop_cons]
    simp [playbackLoop_invocations fe rest]

lemma playbackLoop_rafCalls (fe : NavState → Event → NavState) :
    ∀ (data : List Frame) (nav : NavState),
      (playbackLoop fe data nav).rafCalls = data.length
  | [], _ => rfl
  | _ :: rest, nav => by
    rw [playbackLoop_cons]
    simp [playbackLoop_rafCalls fe rest]

lemma playbackLoop_statsReports (fe : NavState → Event → NavState) :
    ∀ (data : List Frame) (nav : NavState),
      (playbackLoop fe data nav).statsReports = 1
  | [], _ => rfl
  | _ :: rest, nav => by
    rw [playbackLoop_cons]
    simp [playbackLoop_statsReports fe rest]

lemma playbackLoop_ticks_length (fe : NavState → Event → NavState) :
    ∀ (data : List Frame) (nav : NavState),
      (playbackLoop fe data nav).ticks.length = data.length
  | [], _ => rfl
  | _ :: rest, nav => by
    rw [playbackLoop_cons]
    simp [playbackLoop_ticks_length fe rest]

/-- The playback loop's trace of per-tick observations depends only on the
trace, the initial navigation state and the event-dispatch effect — no
clock value enters `playbackLoop` at all; this spells that out. -/
lemma startInputEventPlayback_ticks (fe : NavState → Event → NavState)
    (data : List Frame) (nav : NavState) (fc : ℕ) (startNow endNow : ℤ) :
    (startInputEventPlayback fe data nav fc startNow endNow).ticks =
      (playbackLoop fe data nav).ticks := by
  unfold startInputEventPlayback
  rfl

lemma startInputEventPlayback_frameCounter
    (fe : NavState → Event → NavState) (data : List Frame) (nav : NavState)
    (fc : ℕ) (startNow endNow : ℤ) :
    (startInputEventPlayback fe data nav fc startNow endNow).frameCounter =
      fc := by
  unfold startInputEventPlayback
  rfl

lemma startInputEventPlayback_fps (fe : NavState → Event → NavState)
    (data : List Frame) (nav : NavState) (fc : ℕ) (startNow endNow : ℤ) :
    (startInputEventPlayback fe data nav fc startNow endNow).fps =
      (data.length : ℚ) / (((endNow - startNow : ℤ) : ℚ) / 1000) := by
  unfold startInputEventPlayback
  rfl

/-- If no dispatched event toggles `showHomeScreen`, folding the dispatch
effect over a list of events leaves `showHomeScreen` unchanged. -/
lemma foldl_fireEffect_showHomeScreen (fe : NavState → Event → NavState)
    (hfe : ∀ n ev, (fe n ev).showHomeScreen = n.showHomeScreen) :
    ∀ (evs : List Event) (nav : NavState),
      (evs.foldl fe nav).showHomeScreen = nav.showHomeScreen
  | [], _ => rfl
  | ev :: evs, nav => by
    rw [List.foldl_cons, foldl_fireEffect_showHomeScreen fe hfe evs]
    exact hfe nav ev

/-- While the home screen stays hidden, every playback tick steps the
model with exactly the `dt` pre-recorded in its frame. -/
lemma playbackLoop_steps (fe : NavState → Event → NavState)
    (hfe : ∀ n ev, (fe n ev).showHomeScreen = n.showHomeScreen) :
    ∀ (data : List Frame) (nav : NavState),
      nav.showHomeScreen = false →
      (playbackLoop fe data nav).ticks.map PlaybackTick.step =
        data.map (fun f => some f.dt)
  | [], _, _ => rfl
  | f :: rest, nav, hnav => by
    rw [playbackLoop_cons]
    have h1 : (f.events.foldl fe nav).showHomeScreen = false := by
      rw [foldl_fireEffect_showHomeScreen fe hfe, hnav]
    simp [h1, playbackLoop_steps fe hfe rest _ h1]

/-- While the home screen stays hidden, the number of playback ticks whose
`step` fired equals the trace length (zero-`dt` frames included). -/
lemma playbackLoop_stepCount (fe : NavState → Event → NavState)
    (hfe : ∀ n ev, (fe n ev).showHomeScreen = n.showHomeScreen) :
    ∀ (data : List Frame) (nav : NavState),
      nav.showHomeScreen = false →
      ((playbackLoop fe data nav).ticks.filter
        (fun t => t.step.isSome)).length = data.length
  | [], _, _ => rfl
  | f :: rest, nav, hnav => by
    rw [playbackLoop_cons]
    have h1 : (f.events.foldl fe nav).showHomeScreen = false := by
      rw [foldl_fireEffect_showHomeScreen fe hfe, hnav]
    simp [h1, playbackLoop_stepCount fe hfe rest _ h1]

/-! ### C1: playback determinism -/

/-- C1.  Playback determinism: two runs of `startInputEventPlayback` on the
same loaded trace — with arbitrary, possibly different, wall-clock readings
and frame counters — make exactly the same sequence of
(injected events, `model.step` delta) observations per tick; moreover, as
long as the home screen stays hidden, every tick steps the model with
exactly the `dt` recorded in its trace frame, so the deltas come solely
from the trace and never from a wall-clock measurement during playback. -/
theorem playback_determinism (fe : NavState → Event → NavState)
    (data : List Frame) (nav : NavState) (fc1 fc2 : ℕ)
    (s1 e1 s2 e2 : ℤ) :
    (startInputEventPlayback fe data nav fc1 s1 e1).ticks =
      (startInputEventPlayback fe data nav fc2 s2 e2).ticks ∧
    ((∀ n ev, (fe n ev).showHomeScreen = n.showHomeScreen) →
      nav.showHomeScreen = false →
      (startInputEventPlayback fe data nav fc1 s1 e1).ticks.map
          PlaybackTick.step = data.map (fun f => some f.dt)) := by
  constructor
  · rw [startInputEventPlayback_ticks, startInputEventPlayback_ticks]
  · intro hfe hnav
    rw [startInputEventPlayback_ticks]
    exact playbackLoop_steps fe hfe data nav hnav

/-- Witness for C1 on a concrete two-frame trace replayed with two very
different pairs of wall-clock readings. -/
theorem playback_determinism_witness :
    (startInputEventPlayback fireEffectId
        [sampleFrame (1/60) ["mouseDown(10,10)"] 1, sampleFrame (1/50) [] 2]
        navScreen0 0 0 17).ticks =
      (startInputEventPlayback fireEffectId
        [sampleFrame (1/60) ["mouseDown(10,10)"] 1, sampleFrame (1/50) [] 2]
        navScreen0 7 1000 99999).ticks ∧
    (startInputEventPlayback fireEffectId
        [sampleFrame (1/60) ["mouseDown(10,10)"] 1, sampleFrame (1/50) [] 2]
        navScreen0 0 0 17).ticks.map PlaybackTick.step =
      [some (1/60 : ℚ), some (1/50 : ℚ)] := by
  have h := playback_determinism fireEffectId
    [sampleFrame (1/60) ["mouseDown(10,10)"] 1, sampleFrame (1/50) [] 2]
    navScreen0 0 7 0 17 1000 99999
  refine ⟨h.1, ?_⟩
  rw [h.2 (fun n ev => rfl) rfl]
  rfl

/-! ### C3: playback completion -/

/-- C3 counterexample.  The claim predicts that a playback of a one-frame
trace whose single frame has `dt = 0` (a zero-delta frame, home screen
hidden) calls `model.step` `1 - 1 = 0` times; the code calls it once,
because `startInputEventPlayback` steps the model unconditionally with
`frame.dt` (Sim.js 830-832) and has no zero-delta guard. -/
theorem playback_completion_cex :
    modelStepCount (startInputEventPlayback fireEffectId
        [sampleFrame 0 [] 1] navScreen0 0 0 100) = 1 ∧
    ¬ modelStepCount (startInputEventPlayback fireEffectId
        [sampleFrame 0 [] 1] navScreen0 0 0 100) =
      [sampleFrame 0 [] 1].length - 1 := by
  decide

/-- C3 (amended).  For a finite trace of `N` frames replayed while the home
screen stays hidden, playback runs the statistics-reporting completion
branch exactly once, makes `N + 1` loop invocations, calls the current
screen's `model.step` exactly `N` times — zero-delta frames are *not*
skipped during playback — and reports a frames-per-second figure computed
as `N / (measuredElapsedMillis / 1000)`. -/
theorem playback_completion (fe : NavState → Event → NavState)
    (data : List Frame) (nav : NavState) (fc : ℕ) (startNow endNow : ℤ)
    (hfe : ∀ n ev, (fe n ev).showHomeScreen = n.showHomeScreen)
    (hnav : nav.showHomeScreen = false) :
    (startInputEventPlayback fe data nav fc startNow endNow).statsReports
        = 1 ∧
    (startInputEventPlayback fe data nav fc startNow endNow).invocations
        = data.length + 1 ∧
    modelStepCount (startInputEventPlayback fe data nav fc startNow endNow)
        = data.length ∧
    (startInputEventPlayback fe data nav fc startNow endNow).fps =
      (data.length : ℚ) / (((endNow - startNow : ℤ) : ℚ) / 1000) := by
  refine ⟨?_, ?_, ?_, startInputEventPlayback_fps fe data nav fc startNow
    endNow⟩
  · show (playbackLoop fe data nav).statsReports = 1
    exact playbackLoop_statsReports fe data nav
  · show (playbackLoop fe data nav).invocations = data.length + 1
    exact playbackLoop_invocations fe data nav
  · show ((playbackLoop fe data nav).ticks.filter
        (fun t => t.step.isSome)).length = data.length
    exact playbackLoop_stepCount fe hfe data nav hnav

/-- Witness for C3 (amended) on a concrete three-frame trace containing a
zero-delta frame, replayed over 2000 measured milliseconds. -/
theorem playback_completion_witness :
    (startInputEventPlayback fireEffectId
        [sampleFrame (1/60) [] 1, sampleFrame 0 [] 2, sampleFrame (1/50) [] 3]
        navScreen0 0 500 2500).statsReports = 1 ∧
    (startInputEventPlayback fireEffectId
        [sampleFrame (1/60) [] 1, sampleFrame 0 [] 2, sampleFrame (1/50) [] 3]
        navScreen0 0 500 2500).invocations = 4 ∧
    modelStepCount (startInputEventPlayback fireEffectId
        [sampleFrame (1/60) [] 1, sampleFrame 0 [] 2, sampleFrame (1/50) [] 3]
        navScreen0 0 500 2500) = 3 ∧
    (startInputEventPlayback fireEffectId
        [sampleFrame (1/60) [] 1, sampleFrame 0 [] 2, sampleFrame (1/50) [] 3]
        navScreen0 0 500 2500).fps = 3 / 2 := by
  have h := playback_completion fireEffectId
    [sampleFrame (1/60) [] 1, sampleFrame 0 [] 2, sampleFrame (1/50) [] 3]
    navScreen0 0 500 2500 (fun n ev => rfl) rfl
  refine ⟨h.1, h.2.1, h.2.2.1, ?_⟩
  rw [h.2.2.2]
  norm_num

/-! ### C10: playback termination -/

/-- C10.  `startInputEventPlayback` terminates for every finite trace: each
scheduled invocation advances the cursor by exactly one (the recursion is
over the remaining suffix of the trace), so a trace of `N` frames gives
exactly `N + 1` loop invocations and `N` `requestAnimationFrame` re-arms,
and the completion statistics are reported exactly once; playback of an
empty trace reports statistics immediately, stepping no model and
scheduling no animation frame. -/
theorem playback_terminates (fe : NavState → Event → NavState)
    (data : List Frame) (nav : NavState) (fc : ℕ) (startNow endNow : ℤ) :
    (startInputEventPlayback fe data nav fc startNow endNow).invocations
        = data.length + 1 ∧
    (startInputEventPlayback fe data nav fc startNow endNow).rafCalls
        = data.length ∧
    (startInputEventPlayback fe data nav fc startNow endNow).statsReports
        = 1 ∧
    (startInputEventPlayback fe [] nav fc startNow endNow).statsReports
        = 1 ∧
    (startInputEventPlayback fe [] nav fc startNow endNow).rafCalls = 0 ∧
    modelStepCount (startInputEventPlayback fe [] nav fc startNow endNow)
        = 0 := by
  refine ⟨?_, ?_, ?_, rfl, rfl, rfl⟩
  · show (playbackLoop fe data nav).invocations = data.length + 1
    exact playbackLoop_invocations fe data nav
  · show (playbackLoop fe data nav).rafCalls = data.length
    exact playbackLoop_rafCalls fe data nav
  · show (playbackLoop fe data nav).statsReports = 1
    exact playbackLoop_statsReports fe data nav

/-! ### C4: zero-delta guard in the live loop -/

/-- C4.  Zero-delta guard: on a live tick where the sim is active and the
home screen is hidden, if the computed `deltaTimeSeconds` is `0` then
`model.step` is not invoked, but `view.step` still is (when the screen has
one, and with the same zero delta) and the `updateDisplay` redraw still
happens. -/
theorem zero_delta_guard (options : SimOptions) (s : LiveState)
    (inp : TickInput) (hactive : inp.active = true)
    (hhome : inp.showHomeScreen = false)
    (hdt : (animationLoopTick options s inp).2.dt = 0) :
    (animationLoopTick options s inp).2.modelStep = none ∧
    (inp.hasViewStep = true →
      (animationLoopTick options s inp).2.viewStep = some 0) ∧
    (animationLoopTick options s inp).2.updateDisplayCalled = true := by
  refine ⟨?_, ?_, rfl⟩
  · rw [tick_out_modelStep]
    simp [hdt]
  · intro hview
    rw [tick_out_viewStep]
    simp [hactive, hhome, hview, hdt]

/-- Witness for C4: a second tick arriving at the same wall-clock
millisecond as the first (`lastTime = 7`, `now = 7`) yields `dt = 0`. -/
theorem zero_delta_guard_witness :
    (animationLoopTick plainOptions
        { frameCounter := 1, lastTime := 7, batchedEvents := [],
          eventLog := [], inputEventWidth := none, inputEventHeight := none }
        (sampleTick 7 768 504 [] true false)).2.dt = 0 ∧
    (animationLoopTick plainOptions
        { frameCounter := 1, lastTime := 7, batchedEvents := [],
          eventLog := [], inputEventWidth := none, inputEventHeight := none }
        (sampleTick 7 768 504 [] true false)).2.modelStep = none ∧
    ((sampleTick 7 768 504 [] true false).hasViewStep = true →
      (animationLoopTick plainOptions
        { frameCounter := 1, lastTime := 7, batchedEvents := [],
          eventLog := [], inputEventWidth := none, inputEventHeight := none }
        (sampleTick 7 768 504 [] true false)).2.viewStep = some 0) ∧
    (animationLoopTick plainOptions
        { frameCounter := 1, lastTime := 7, batchedEvents := [],
          eventLog := [], inputEventWidth := none, inputEventHeight := none }
        (sampleTick 7 768 504 [] true false)).2.updateDisplayCalled
        = true := by
  have hdt : (animationLoopTick plainOptions
      { frameCounter := 1, lastTime := 7, batchedEvents := [],
        eventLog := [], inputEventWidth := none, inputEventHeight := none }
      (sampleTick 7 768 504 [] true false)).2.dt = 0 := by
    rw [tick_out_dt]
    norm_num [sampleTick]
  refine ⟨hdt, ?_⟩
  exact zero_delta_guard plainOptions
    { frameCounter := 1, lastTime := 7, batchedEvents := [], eventLog := [],
      inputEventWidth := none, inputEventHeight := none }
    (sampleTick 7 768 504 [] true false) rfl rfl hdt

/-! ### C6: first-frame sentinel -/

/-- The first tick of a run computes its `dt` from the state's `lastTime`
sentinel. -/
lemma runLoop_dt_zero (options : SimOptions) (s : LiveState)
    (ticks : List TickInput) (t0 : TickInput) (h0 : ticks[0]? = some t0) :
    ((runAnimationLoop options s ticks).2)[0]?.map TickOutput.dt =
      some ((if s.lastTime = -1 then (1000 / 60 : ℚ)
             else ((t0.now - s.lastTime : ℤ) : ℚ)) / 1000) := by
  cases ticks with
  | nil => simp at h0
  | cons t ts =>
    rw [List.getElem?_cons_zero, Option.some_inj] at h0
    subst h0
    rw [runAnimationLoop_cons]
    rw [List.getElem?_cons_zero, Option.map_some', tick_out_dt]

/-- Each later tick of a run computes its `dt` from the wall-clock times of
that tick and the previous one. -/
lemma runLoop_dt_succ (options : SimOptions) :
    ∀ (ticks : List TickInput) (s : LiveState) (i : ℕ)
      (ti ti1 : TickInput), (∀ t ∈ ticks, 0 ≤ t.now) →
      ticks[i]? = some ti → ticks[i + 1]? = some ti1 →
      ((runAnimationLoop options s ticks).2)[i + 1]?.map TickOutput.dt =
        some (((ti1.now - ti.now : ℤ) : ℚ) / 1000)
  | [], _, i, _, _, _, h0, _ => by simp at h0
  | t :: ts, s, 0, ti, ti1, hnow, h0, h1 => by
    rw [List.getElem?_cons_zero, Option.some_inj] at h0
    subst h0
    rw [List.getElem?_cons_succ] at h1
    rw [runAnimationLoop_cons, List.getElem?_cons_succ]
    rw [runLoop_dt_zero options _ ts ti1 h1, tick_state_lastTime]
    have hpos : 0 ≤ t.now := hnow t (List.mem_cons_self t ts)
    have hne : ¬ t.now = -1 := by omega
    rw [if_neg hne]
  | t :: ts, s, i + 1, ti, ti1, hnow, h0, h1 => by
    rw [List.getElem?_cons_succ] at h0 h1
    rw [runAnimationLoop_cons, List.getElem?_cons_succ]
    exact runLoop_dt_succ options ts _ i ti ti1
      (fun u hu => hnow u (List.mem_cons_of_mem t hu)) h0 h1

/-- C6.  First-frame sentinel: on the first live tick, when no prior tick
time has been recorded (`lastTime = -1`), the computed `deltaTimeSeconds`
is exactly `1/60`; on every later tick it is
`(nowMillis - lastTickMillis) / 1000` for the two consecutive wall-clock
readings. -/
theorem first_frame_sentinel (options : SimOptions) (s : LiveState)
    (ticks : List TickInput) (hlast : s.lastTime = -1)
    (hnow : ∀ t ∈ ticks, 0 ≤ t.now) :
    (∀ t0, ticks[0]? = some t0 →
      ((runAnimationLoop options s ticks).2)[0]?.map TickOutput.dt =
        some (1 / 60)) ∧
    (∀ i ti ti1, ticks[i]? = some ti → ticks[i + 1]? = some ti1 →
      ((runAnimationLoop options s ticks).2)[i + 1]?.map TickOutput.dt =
        some (((ti1.now - ti.now : ℤ) : ℚ) / 1000)) := by
  constructor
  · intro t0 h0
    rw [runLoop_dt_zero options s ticks t0 h0, hlast]
    norm_num
  · intro i ti ti1 h0 h1
    exact runLoop_dt_succ options ticks s i ti ti1 hnow h0 h1

/-- Witness for C6: two live ticks at wall times 1000 and 1020 from the
initial state give deltas `1/60` (sentinel) and `20/1000 = 1/50`. -/
theorem first_frame_sentinel_witness :
    ((runAnimationLoop plainOptions LiveState.init
        [sampleTick 1000 768 504 [] true false,
         sampleTick 1020 768 504 [] true false]).2)[0]?.map TickOutput.dt
      = some (1 / 60) ∧
    ((runAnimationLoop plainOptions LiveState.init
        [sampleTick 1000 768 504 [] true false,
         sampleTick 1020 768 504 [] true false]).2)[1]?.map TickOutput.dt
      = some (1 / 50) := by
  have h := first_frame_sentinel plainOptions LiveState.init
    [sampleTick 1000 768 504 [] true false,
     sampleTick 1020 768 504 [] true false] rfl (by decide)
  refine ⟨h.1 _ rfl, ?_⟩
  rw [h.2 0 (sampleTick 1000 768 504 [] true false)
    (sampleTick 1020 768 504 [] true false) rfl rfl]
  norm_num [sampleTick]

/-! ### C5: inactive ticks discard buffered input -/

/-- A tick taken while the sim is inactive (batching on, no fuzzing) fires
no batched events and leaves the batch buffer empty: `clearBatchedEvents`
discards, it does not defer. -/
lemma tick_inactive_clears (options : SimOptions) (s : LiveState)
    (inp : TickInput) (hb : options.batchEvents = true)
    (hm : options.fuzzMouse = false) (ht : options.fuzzTouches = false)
    (ha : inp.active = false) :
    (animationLoopTick options s inp).2.firedBatched = [] ∧
    (animationLoopTick options s inp).1.batchedEvents = [] := by
  rw [tick_out_firedBatched, tick_state_batchedEvents]
  simp [hb, hm, ht, ha]

/-- With batching on and no fuzzing, every tick leaves the batch buffer
empty (fired when active, cleared when inactive). -/
lemma tick_batch_buffer_empty (options : SimOptions) (s : LiveState)
    (inp : TickInput) (hb : options.batchEvents = true)
    (hm : options.fuzzMouse = false) (ht : options.fuzzTouches = false) :
    (animationLoopTick options s inp).1.batchedEvents = [] := by
  rw [tick_state_batchedEvents]
  simp [hb, hm, ht]

/-- A tick taken from an empty batch buffer can only fire events that
arrived since the previous tick. -/
lemma tick_fired_subset (options : SimOptions) (s : LiveState)
    (inp : TickInput) (hempty : s.batchedEvents = []) :
    (animationLoopTick options s inp).2.firedBatched ⊆
      inp.newBatchedEvents := by
  rw [tick_out_firedBatched, hempty]
  split
  · exact List.nil_subset _
  · split
    · rw [List.nil_append]
      exact List.Subset.refl _
    · exact List.nil_subset _

/-- Starting from an empty batch buffer (batching on, no fuzzing), every
tick of a run fires only events that arrived since the previous tick. -/
lemma runLoop_fired_from_new (options : SimOptions)
    (hb : options.batchEvents = true) (hm : options.fuzzMouse = false)
    (ht : options.fuzzTouches = false) :
    ∀ (ticks : List TickInput) (s : LiveState), s.batchedEvents = [] →
      ∀ p ∈ ((runAnimationLoop options s ticks).2.zip ticks),
        p.1.firedBatched ⊆ p.2.newBatchedEvents
  | [], _, _ => by simp
  | t :: ts, s, hempty => by
    rw [runAnimationLoop_cons]
    intro p hp
    rw [List.zip_cons_cons, List.mem_cons] at hp
    rcases hp with hp | hp
    · subst hp
      exact tick_fired_subset options s t hempty
    · exact runLoop_fired_from_new options hb hm ht ts _
        (tick_batch_buffer_empty options s t hb hm ht) p hp

/-- C5.  Inactive input discard: in a batching, non-fuzzing run, take any
tick at which the sim is inactive (e.g. `setActive(false)` arrived via the
`SimIFrameAPI` before the tick).  That tick delivers none of the buffered
events, leaves the buffer empty, and every later tick of the run fires only
events that newly arrived after the inactive tick — so the events buffered
before the inactive tick are dropped, never deferred for later delivery. -/
theorem inactive_input_discard (options : SimOptions) (s : LiveState)
    (pre : List TickInput) (tk : TickInput) (post : List TickInput)
    (hb : options.batchEvents = true) (hm : options.fuzzMouse = false)
    (ht : options.fuzzTouches = false) (ha : tk.active = false) :
    (animationLoopTick options (runAnimationLoop options s pre).1
        tk).2.firedBatched = [] ∧
    (animationLoopTick options (runAnimationLoop options s pre).1
        tk).1.batchedEvents = [] ∧
    ∀ p ∈ ((runAnimationLoop options
          (animationLoopTick options (runAnimationLoop options s pre).1
            tk).1 post).2.zip post),
      p.1.firedBatched ⊆ p.2.newBatchedEvents := by
  obtain ⟨h1, h2⟩ := tick_inactive_clears options
    (runAnimationLoop options s pre).1 tk hb hm ht ha
  exact ⟨h1, h2, runLoop_fired_from_new options hb hm ht post _ h2⟩

/-- Witness for C5: two events are batched, `setActive(false)` arrives, the
inactive tick fires nothing, and a later active tick fires only its own
newly arrived event. -/
theorem inactive_input_discard_witness :
    (animationLoopTick batchingOptions
        (runAnimationLoop batchingOptions LiveState.init []).1
        (sampleTick 1000 768 504 ["mouseDown(1,1)", "mouseUp(1,1)"] false
          false)).2.firedBatched = [] ∧
    (animationLoopTick batchingOptions
        (runAnimationLoop batchingOptions LiveState.init []).1
        (sampleTick 1000 768 504 ["mouseDown(1,1)", "mouseUp(1,1)"] false
          false)).1.batchedEvents = [] ∧
    ∀ p ∈ ((runAnimationLoop batchingOptions
          (animationLoopTick batchingOptions
            (runAnimationLoop batchingOptions LiveState.init []).1
            (sampleTick 1000 768 504 ["mouseDown(1,1)", "mouseUp(1,1)"]
              false false)).1
          [sampleTick 1020 768 504 ["mouseMove(2,2)"] true false]).2.zip
        [sampleTick 1020 768 504 ["mouseMove(2,2)"] true false]),
      p.1.firedBatched ⊆ p.2.newBatchedEvents :=
  inactive_input_discard batchingOptions LiveState.init []
    (sampleTick 1000 768 504 ["mouseDown(1,1)", "mouseUp(1,1)"] false false)
    [sampleTick 1020 768 504 ["mouseMove(2,2)"] true false]
    rfl rfl rfl rfl

/-! ### C7: tick counter -/

/-- After a live run, the frame counter has increased by exactly the number
of ticks. -/
lemma runLoop_frameCounter_final (options : SimOptions) :
    ∀ (ticks : List TickInput) (s : LiveState),
      (runAnimationLoop options s ticks).1.frameCounter =
        s.frameCounter + ticks.length
  | [], _ => rfl
  | t :: ts, s => by
    rw [runAnimationLoop_cons]
    show (runAnimationLoop options (animationLoopTick options s t).1
      ts).1.frameCounter = s.frameCounter + (t :: ts).length
    rw [runLoop_frameCounter_final options ts _, tick_state_frameCounter]
    simp
    omega

/-- The `i`-th tick of a live run observes frame counter value
`initial + i + 1`. -/
lemma runLoop_frameCounter_at (options : SimOptions) :
    ∀ (ticks : List TickInput) (s : LiveState) (i : ℕ),
      ((runAnimationLoop options s ticks).2)[i]?.map
          TickOutput.frameCounter =
        if i < ticks.length then some (s.frameCounter + i + 1) else none
  | [], _, i => by
    rw [runAnimationLoop_nil]
    simp
  | t :: ts, s, 0 => by
    rw [runAnimationLoop_cons, List.getElem?_cons_zero, Option.map_some',
      tick_out_frameCounter]
    simp
  | t :: ts, s, i + 1 => by
    rw [runAnimationLoop_cons, List.getElem?_cons_succ,
      runLoop_frameCounter_at options ts _ i, tick_state_frameCounter]
    by_cases h : i < ts.length
    · have h2 : i + 1 < (t :: ts).length := by
        simp only [List.length_cons]
        omega
      rw [if_pos h, if_pos h2]
      congr 1
      omega
    · have h2 : ¬ i + 1 < (t :: ts).length := by
        simp only [List.length_cons]
        omega
      rw [if_neg h, if_neg h2]

/-- Every frame entry a tick records carries the post-increment frame
counter as its `id`. -/
lemma tick_recorded_id (options : SimOptions) (s : LiveState)
    (inp : TickInput) :
    ∀ e ∈ (animationLoopTick options s inp).2.recorded,
      e.id = (animationLoopTick options s inp).2.frameCounter := by
  intro e he
  rw [tick_out_recorded] at he
  rw [tick_out_frameCounter]
  by_cases hrec : options.recordInputEventLog
  · rw [if_pos hrec] at he
    rw [Option.mem_def, Option.some_inj] at he
    rw [← he, recordFrameEntry_id]
  · rw [if_neg hrec] at he
    simp at he

/-- Every frame entry recorded during a live run carries its tick's frame
counter as its `id`. -/
lemma runLoop_recorded_id (options : SimOptions) :
    ∀ (ticks : List TickInput) (s : LiveState),
      ∀ o ∈ (runAnimationLoop options s ticks).2,
        ∀ e ∈ o.recorded, e.id = o.frameCounter
  | [], _ => by
    rw [runAnimationLoop_nil]
    simp
  | t :: ts, s => by
    rw [runAnimationLoop_cons]
    intro o ho
    rw [List.mem_cons] at ho
    rcases ho with ho | ho
    · subst ho
      exact tick_recorded_id options s t
    · exact runLoop_recorded_id options ts _ o ho

/-- C7 counterexample.  The claim says the frame counter is incremented
exactly once per animation tick "in every mode, both during a live run and
during playback of a trace"; but `startInputEventPlayback` never touches
`sim.frameCounter`: a playback run that processes one trace frame leaves
the counter at its initial value `0` instead of `0 + 1`. -/
theorem tick_counter_playback_cex :
    (startInputEventPlayback fireEffectId [sampleFrame (1/60) [] 1]
        navScreen0 0 0 16).ticks.length = 1 ∧
    (startInputEventPlayback fireEffectId [sampleFrame (1/60) [] 1]
        navScreen0 0 0 16).frameCounter = 0 ∧
    ¬ (startInputEventPlayback fireEffectId [sampleFrame (1/60) [] 1]
          navScreen0 0 0 16).frameCounter =
        0 + (startInputEventPlayback fireEffectId [sampleFrame (1/60) [] 1]
          navScreen0 0 0 16).ticks.length := by
  refine ⟨rfl, rfl, ?_⟩
  intro h
  simp [startInputEventPlayback_frameCounter] at h
  rw [startInputEventPlayback_ticks, playbackLoop_ticks_length] at h
  simp at h

/-- C7 (amended).  During a live run the frame counter is monotonically
increasing and incremented exactly once per animation tick — after `n`
ticks it equals `initial + n`, and the `i`-th tick observes value
`initial + i + 1`, which is the `id` stamped on any frame entry that tick
records; during playback of a trace the counter is not incremented at
all. -/
theorem tick_counter (options : SimOptions) (s : LiveState)
    (ticks : List TickInput) :
    (runAnimationLoop options s ticks).1.frameCounter =
      s.frameCounter + ticks.length ∧
    (∀ i, ((runAnimationLoop options s ticks).2)[i]?.map
        TickOutput.frameCounter =
      if i < ticks.length then some (s.frameCounter + i + 1) else none) ∧
    (∀ o ∈ (runAnimationLoop options s ticks).2,
      ∀ e ∈ o.recorded, e.id = o.frameCounter) ∧
    (∀ (fe : NavState → Event → NavState) (data : List Frame)
        (nav : NavState) (fc : ℕ) (startNow endNow : ℤ),
      (startInputEventPlayback fe data nav fc startNow endNow).frameCounter
        = fc) :=
  ⟨runLoop_frameCounter_final options ticks s,
   fun i => runLoop_frameCounter_at options ticks s i,
   runLoop_recorded_id options ticks s,
   fun fe data nav fc startNow endNow =>
     startInputEventPlayback_frameCounter fe data nav fc startNow endNow⟩

/-- Witness for C7 on a concrete two-tick recording run: the counter ends
at `2`, the second tick observes counter value `2`, and its recorded entry
has `id = 2`. -/
theorem tick_counter_witness :
    (runAnimationLoop recordingOptions LiveState.init
        [sampleTick 1000 768 504 [] true false,
         sampleTick 1020 768 504 [] true false]).1.frameCounter = 2 ∧
    ((runAnimationLoop recordingOptions LiveState.init
        [sampleTick 1000 768 504 [] true false,
         sampleTick 1020 768 504 [] true false]).2)[1]?.map
      TickOutput.frameCounter = some 2 := by
  have h := tick_counter recordingOptions LiveState.init
    [sampleTick 1000 768 504 [] true false,
     sampleTick 1020 768 504 [] true false]
  refine ⟨h.1.trans (by decide), (h.2.1 1).trans (by decide)⟩

/-! ### C8: query-parameter precedence for showHomeScreen -/

/-- C8 (code bug demonstration).  A multi-screen sim constructed with
`options.showHomeScreen = true` and the runtime query parameter
`showHomeScreen=false`: the query parameter parses to `false` and is
written into `options.showHomeScreen` (Sim.js 221-224), but that
assignment happens *after* `PropertySet.call` (Sim.js 139-142) already
initialized the `showHomeScreen` property from the earlier local variable,
and nothing reads `options.showHomeScreen` afterwards — so the sim's
initial `showHomeScreen` state stays `true`, not the `false` the query
parameter demands. -/
theorem query_parameter_dead_store :
    (simConstructShowHomeScreen (some true) 2
        (some "false")).propShowHomeScreen = true ∧
    stringToBoolean "false" = false ∧
    (simConstructShowHomeScreen (some true) 2
        (some "false")).optionsShowHomeScreen = false ∧
    ¬ (simConstructShowHomeScreen (some true) 2
        (some "false")).propShowHomeScreen = stringToBoolean "false" := by
  decide

/-! ### C9: display.interactive mirrors sim.active -/

/-- One `setActive` application preserves the link invariant. -/
lemma setActive_preserves (s : ActiveLinkState) (value : Bool)
    (h : s.displayInteractive = s.active) :
    (setActive s value).displayInteractive = (setActive s value).active := by
  unfold setActive
  split
  · exact h
  · rfl

/-- Folding any command sequence preserves the link invariant. -/
lemma foldl_setActive_preserves :
    ∀ (cmds : List Bool) (s : ActiveLinkState),
      s.displayInteractive = s.active →
      ((cmds.foldl setActive s).displayInteractive =
        (cmds.foldl setActive s).active)
  | [], _, h => h
  | c :: cmds, s, h => by
    rw [List.foldl_cons]
    exact foldl_setActive_preserves cmds (setActive s c)
      (setActive_preserves s c h)

/-- C9.  The display's `interactive` flag always equals the sim's `active`
flag: the property link sets it at construction, and after any sequence of
`active` assignments (e.g. `setActive` commands from the `SimIFrameAPI`)
the two flags still agree — in particular, whenever the sim is inactive
the display is non-interactive. -/
theorem display_interactive_eq_active (initialActive d0 : Bool)
    (cmds : List Bool) :
    (linkActiveToDisplay initialActive d0).displayInteractive =
      (linkActiveToDisplay initialActive d0).active ∧
    ((cmds.foldl setActive (linkActiveToDisplay initialActive
        d0)).displayInteractive =
      (cmds.foldl setActive (linkActiveToDisplay initialActive
        d0)).active) ∧
    ((cmds.foldl setActive (linkActiveToDisplay initialActive
        d0)).active = false →
      (cmds.foldl setActive (linkActiveToDisplay initialActive
        d0)).displayInteractive = false) := by
  have h := foldl_setActive_preserves cmds (linkActiveToDisplay
    initialActive d0) rfl
  exact ⟨rfl, h, fun hf => h.trans hf⟩

/-- Witness for C9: a sim constructed active whose display starts
non-interactive, then deactivated and reactivated via `setActive`
commands; the flags agree at the end, and an inactive run ends
non-interactive. -/
theorem display_interactive_eq_active_witness :
    (([false, true, false].foldl setActive (linkActiveToDisplay true
        false)).displayInteractive =
      ([false, true, false].foldl setActive (linkActiveToDisplay true
        false)).active) ∧
    ([false, true, false].foldl setActive (linkActiveToDisplay true
        false)).displayInteractive = false := by
  have h := display_interactive_eq_active true false [false, true, false]
  exact ⟨h.2.1, h.2.2 (by decide)⟩

/-! ### C2: viewport delta-encoding -/

lemma lastDims_append (xs ys : List Entry) :
    lastDims (xs ++ ys) = ys.foldl updateDims (lastDims xs) := by
  unfold lastDims
  rw [List.foldl_append]

lemma lastDims_concat (xs : List Entry) (e : Entry) :
    lastDims (xs ++ [e]) = updateDims (lastDims xs) e := by
  rw [lastDims_append]
  rfl

lemma recordedEntries_nil (options : SimOptions) (s : LiveState) :
    recordedEntries options s [] = [] := rfl

lemma recordedEntries_cons (options : SimOptions)
    (hrec : options.recordInputEventLog = true) (s : LiveState)
    (t : TickInput) (ts : List TickInput) :
    recordedEntries options s (t :: ts) =
      (recordFrameEntry s (s.frameCounter + 1)
          ((animationLoopTick options s t).2.dt)
          (s.eventLog ++ t.newLoggedEvents) t.entryTime
          t.displayWidth t.displayHeight).entry ::
        recordedEntries options (animationLoopTick options s t).1 ts := by
  unfold recordedEntries
  rw [runAnimationLoop_cons]
  simp only [List.filterMap_cons, tick_out_recorded, hrec, if_true]

lemma recordedEntries_length (options : SimOptions)
    (hrec : options.recordInputEventLog = true) :
    ∀ (ticks : List TickInput) (s : LiveState),
      (recordedEntries options s ticks).length = ticks.length
  | [], _ => rfl
  | t :: ts, s => by
    rw [recordedEntries_cons options hrec, List.length_cons,
      recordedEntries_length options hrec ts _, List.length_cons]

/-- A pair of optional dimensions differs from `(some w, some h)` exactly
when one of its components does — the comparison the recording branch
performs (Sim.js 757-758). -/
lemma dims_pair_ne (a b : Option ℕ) (w h : ℕ) :
    (a, b) ≠ ((some w : Option ℕ), (some h : Option ℕ)) ↔
      (a ≠ some w ∨ b ≠ some h) := by
  rw [ne_eq, Prod.mk.injEq, not_and_or]

/-- Invariant induction for the recording branch: if the state's
`inputEventWidth`/`inputEventHeight` equal the last dimensions carried by
the already-recorded prefix `pre`, then for every tick `i` of the rest of
the run, (a) scanning `pre` plus the new entries up to `i` for the most
recent carried dimensions yields exactly the display size at tick `i`,
and (b) entry `i` carries dimensions iff the display size at tick `i`
differs from the most recently carried dimensions before it. -/
lemma recording_invariant (options : SimOptions)
    (hrec : options.recordInputEventLog = true) :
    ∀ (ticks : List TickInput) (s : LiveState) (pre : List Entry),
      lastDims pre = (s.inputEventWidth, s.inputEventHeight) →
      ∀ i ti, ticks[i]? = some ti →
        lastDims (pre ++ (recordedEntries options s ticks).take (i + 1)) =
          (some ti.displayWidth, some ti.displayHeight) ∧
        ∀ e, (recordedEntries options s ticks)[i]? = some e →
          (e.width.isSome = true ↔
            lastDims (pre ++ (recordedEntries options s ticks).take i) ≠
              (some ti.displayWidth, some ti.displayHeight))
  | [], _, _, _, i, _, hi => by simp at hi
  | t :: ts, s, pre, hpre, i, ti, hi => by
    have hw := recordFrameEntry_width s (s.frameCounter + 1)
      ((animationLoopTick options s t).2.dt)
      (s.eventLog ++ t.newLoggedEvents) t.entryTime
      t.displayWidth t.displayHeight
    have hh := recordFrameEntry_height s (s.frameCounter + 1)
      ((animationLoopTick options s t).2.dt)
      (s.eventLog ++ t.newLoggedEvents) t.entryTime
      t.displayWidth t.displayHeight
    have hcons := recordedEntries_cons options hrec s t ts
    -- appending the new entry updates the scanned dimensions to the
    -- current display size
    have hstep : lastDims (pre ++ [(recordFrameEntry s (s.frameCounter + 1)
        ((animationLoopTick options s t).2.dt)
        (s.eventLog ++ t.newLoggedEvents) t.entryTime
        t.displayWidth t.displayHeight).entry]) =
        (some t.displayWidth, some t.displayHeight) := by
      rw [lastDims_concat]
      unfold updateDims
      rw [hw, hh]
      by_cases hc : s.inputEventWidth ≠ some t.displayWidth ∨
          s.inputEventHeight ≠ some t.displayHeight
      · rw [if_pos hc, if_pos hc]
        simp
      · rw [if_neg hc, if_neg hc]
        push_neg at hc
        simp [hpre, hc.1, hc.2]
    -- the invariant carries to the post-tick state
    have hinv : lastDims (pre ++ [(recordFrameEntry s (s.frameCounter + 1)
        ((animationLoopTick options s t).2.dt)
        (s.eventLog ++ t.newLoggedEvents) t.entryTime
        t.displayWidth t.displayHeight).entry]) =
        ((animationLoopTick options s t).1.inputEventWidth,
         (animationLoopTick options s t).1.inputEventHeight) := by
      rw [hstep, tick_state_inputEventWidth, tick_state_inputEventHeight]
      simp only [hrec, if_true]
      rw [recordFrameEntry_newWidth, recordFrameEntry_newHeight]
    -- the first new entry carries dimensions iff the display size differs
    -- from the dimensions last carried before it
    have hcarry : ((recordFrameEntry s (s.frameCounter + 1)
        ((animationLoopTick options s t).2.dt)
        (s.eventLog ++ t.newLoggedEvents) t.entryTime
        t.displayWidth t.displayHeight).entry.width.isSome = true ↔
        lastDims pre ≠ (some t.displayWidth, some t.displayHeight)) := by
      rw [hw, hpre, dims_pair_ne]
      by_cases hc : s.inputEventWidth ≠ some t.displayWidth ∨
          s.inputEventHeight ≠ some t.displayHeight
      · rw [if_pos hc]
        exact iff_of_true rfl hc
      · rw [if_neg hc]
        exact iff_of_false (by simp) hc
    cases i with
    | zero =>
      rw [List.getElem?_cons_zero, Option.some_inj] at hi
      subst hi
      constructor
      · rw [hcons, List.take_succ_cons, List.take_zero]
        exact hstep
      · intro e he
        rw [hcons, List.getElem?_cons_zero, Option.some_inj] at he
        subst he
        rw [hcons, List.take_zero, List.append_nil]
        exact hcarry
    | succ n =>
      rw [List.getElem?_cons_succ] at hi
      have ih := recording_invariant options hrec ts
        (animationLoopTick options s t).1
        (pre ++ [(recordFrameEntry s (s.frameCounter + 1)
          ((animationLoopTick options s t).2.dt)
          (s.eventLog ++ t.newLoggedEvents) t.entryTime
          t.displayWidth t.displayHeight).entry]) hinv n ti hi
      constructor
      · rw [hcons, List.take_succ_cons, List.append_cons]
        exact ih.1
      · intro e he
        rw [hcons, List.getElem?_cons_succ] at he
        rw [hcons, List.take_succ_cons, List.append_cons]
        exact ih.2 e he

/-- C2.  Viewport delta-encoding round-trip: in a recording session started
with no previously recorded dimensions, exactly one frame entry is
produced per tick; scanning backward from entry `i` to the most recent
entry carrying `width`/`height` recovers exactly the display size at
capture time of tick `i`; and entry `i` carries `width`/`height` exactly
when the display size differs from the dimensions carried by the most
recent earlier carrying entry (the first entry carries them
unconditionally, since no earlier entry carries any). -/
theorem viewport_delta_encoding (options : SimOptions) (s : LiveState)
    (ticks : List TickInput) (hrec : options.recordInputEventLog = true)
    (hw : s.inputEventWidth = none) (hh : s.inputEventHeight = none) :
    (recordedEntries options s ticks).length = ticks.length ∧
    (∀ i ti, ticks[i]? = some ti →
      effectiveSizeAt (recordedEntries options s ticks) i =
        (some ti.displayWidth, some ti.displayHeight)) ∧
    (∀ i ti e, ticks[i]? = some ti →
      (recordedEntries options s ticks)[i]? = some e →
      (e.width.isSome = true ↔
        lastDims ((recordedEntries options s ticks).take i) ≠
          (some ti.displayWidth, some ti.displayHeight))) := by
  have hpre : lastDims ([] : List Entry) =
      (s.inputEventWidth, s.inputEventHeight) := by
    rw [hw, hh]
    rfl
  refine ⟨recordedEntries_length options hrec ticks s, ?_, ?_⟩
  · intro i ti hi
    have h := (recording_invariant options hrec ticks s [] hpre i ti hi).1
    rw [List.nil_append] at h
    exact h
  · intro i ti e hi he
    have h := (recording_invariant options hrec ticks s [] hpre i ti hi).2
      e he
    rw [List.nil_append] at h
    exact h

/-- Witness for C2 on the spec's three-tick scenario (deltas
`[1/60, 0.02, 0.02]`, resize taking effect on the second tick): the
re-derived effective sizes match the true display sizes at every frame,
and the exported entries carry frame 0 the initial 768×504, frame 1 the
new 1024×672, and frame 2 no dimensions at all. -/
theorem viewport_delta_encoding_witness :
    effectiveSizeAt (recordedEntries recordingOptions LiveState.init
        resizeScenario) 0 = (some 768, some 504) ∧
    effectiveSizeAt (recordedEntries recordingOptions LiveState.init
        resizeScenario) 1 = (some 1024, some 672) ∧
    effectiveSizeAt (recordedEntries recordingOptions LiveState.init
        resizeScenario) 2 = (some 1024, some 672) ∧
    (recordedEntries recordingOptions LiveState.init resizeScenario).map
        (fun e => (e.width, e.height)) =
      [(some 768, some 504), (some 1024, some 672), (none, none)] := by
  have h := viewport_delta_encoding recordingOptions LiveState.init
    resizeScenario rfl rfl rfl
  exact ⟨h.2.1 0 _ rfl, h.2.1 1 _ rfl, h.2.1 2 _ rfl, by decide⟩

end Joist
